import Mathlib

/-!
Shallow embedding of the strategy-execution core of the `nishi-binance-bot`
repository (Python), covering the grid planner (`src/advanced/grid_orders.py`),
the grid rebalancer poll loop, the order-lifecycle monitor
(`src/limit_orders.py`), the TWAP scheduler (`src/advanced/twap.py`) and the
OCO coordinator (`src/advanced/oco.py`), together with the input validators
(`src/validator.py`).

Modelling conventions:
- Python `float` arithmetic is embedded as exact rational arithmetic (`ℚ`);
  float rounding is out of scope.
- Exceptions (`ValidationError` raises) are embedded as `Except`.
- Venue interactions (HTTP calls on `BinanceClient`) are embedded by
  parametrising each strategy function over the observations it reads from the
  venue (order snapshots, open-order lists, ticker prices) and, where relevant,
  by recording the commands it issues.
- Symbol / side / time-in-force validation is orthogonal to every claim treated
  here (all claims presume a valid symbol and side); those checks are elided
  and noted at each definition.
-/

namespace BinanceBot

/-- Error taxonomy: each constructor corresponds to one `raise ValidationError(...)`
site in the source (`validator.py`, `grid_orders.py`, `twap.py`). -/
inductive VError where
  | priceNotPositive
  | priceTooLarge
  | quantityNotPositive
  | quantityTooLarge
  | upperNotAboveLower
  | gridNumberTooSmall
  | investmentNotPositive
  | multiplierTooSmall
  | invalidGridType
  | durationNotPositive
  | chunksNotPositive
  | chunksExceedQuantity
  deriving DecidableEq, Repr

/-- `OrderValidator.validate_price` (`src/validator.py` lines 96-116), with the
default `allow_zero = False` used by every caller modelled here: a price must be
positive and at most 1,000,000. -/
def validate_price (price : ℚ) : Except VError ℚ :=
  if price ≤ 0 then .error .priceNotPositive
  else if 1000000 < price then .error .priceTooLarge
  else .ok price

/-- `OrderValidator.validate_stop_price` (`src/validator.py` lines 132-134):
delegates to `validate_price`. -/
def validate_stop_price (price : ℚ) : Except VError ℚ :=
  validate_price price

/-- `OrderValidator.validate_quantity` (`src/validator.py` lines 74-94):
a quantity must be positive and at most 1,000,000. -/
def validate_quantity (quantity : ℚ) : Except VError ℚ :=
  if quantity ≤ 0 then .error .quantityNotPositive
  else if 1000000 < quantity then .error .quantityTooLarge
  else .ok quantity

/-- One grid level dictionary as built by `GridOrder.create_grid_strategy`
(`grid_orders.py` lines 83-91).  The martingale builder reuses the same record;
its extra `multiplier` key is the `mult_pow` field (set to `1` by the
arithmetic/geometric builder, which instead fills `potential_profit`). -/
structure GridLevel where
  level : ℕ
  buy_price : ℚ
  buy_quantity : ℚ
  sell_price : ℚ
  sell_quantity : ℚ
  investment : ℚ
  potential_profit : ℚ
  mult_pow : ℚ := 1
  deriving DecidableEq, Repr

instance : Inhabited GridLevel := ⟨⟨0, 0, 0, 0, 0, 0, 0, 1⟩⟩

/-- Grid strategy record as returned by `create_grid_strategy` /
`create_martingale_grid` (`grid_orders.py` lines 95-106 and 347-357); the
`symbol`, `created_at` and `status` keys carry no numeric content and are
elided. -/
structure GridStrategy where
  upper_price : ℚ
  lower_price : ℚ
  grid_number : ℕ
  grid_type : String
  total_investment : ℚ
  grid_prices : List ℚ
  grid_orders : List GridLevel
  deriving DecidableEq, Repr

/-- Arithmetic grid prices (`grid_orders.py` lines 61-62):
`[lower_price + i * price_step for i in range(grid_number)]`. -/
def arithmeticGridPrices (lower step : ℚ) (n : ℕ) : List ℚ :=
  (List.range n).map fun (i : ℕ) => lower + (i : ℚ) * step

/-- Geometric grid prices (`grid_orders.py` lines 64-65):
`[lower_price * (ratio ** i) for i in range(grid_number)]`.  The source computes
`ratio = (upper_price / lower_price) ** (1 / (grid_number - 1))` in real
arithmetic; since that real is irrational in general, the embedding takes the
ratio `r` as a parameter and theorems hypothesise its defining equation
`r ^ (grid_number - 1) = upper_price / lower_price` together with `0 < r`,
both of which the source's real-valued ratio satisfies exactly. -/
def geometricGridPrices (lower r : ℚ) (n : ℕ) : List ℚ :=
  (List.range n).map fun (i : ℕ) => lower * r ^ i

/-- The level-building loop of `create_grid_strategy` (`grid_orders.py` lines
72-93): for `i in range(grid_number - 1)` it pairs `grid_prices[i]` (buy) with
`grid_prices[i + 1]` (sell), giving each level the same investment share and
`buy_quantity = investment_per_grid / buy_price`, `sell_quantity = buy_quantity`. -/
def buildGridOrders (invPerGrid : ℚ) : List ℚ → ℕ → List GridLevel
  | p1 :: p2 :: rest, i =>
      { level := i + 1
        buy_price := p1
        buy_quantity := invPerGrid / p1
        sell_price := p2
        sell_quantity := invPerGrid / p1
        investment := invPerGrid
        potential_profit := (p2 - p1) * (invPerGrid / p1) } ::
      buildGridOrders invPerGrid (p2 :: rest) (i + 1)
  | _, _ => []

/-- The grid-price branch of `create_grid_strategy` (`grid_orders.py` lines
59-67), including the `else` branch raising on an unknown grid type. -/
def gridPricesFor (gridType : String) (upper lower : ℚ) (n : ℕ) (r : ℚ) :
    Except VError (List ℚ) :=
  if gridType = "arithmetic" then
    .ok (arithmeticGridPrices lower ((upper - lower) / ((n : ℚ) - 1)) n)
  else if gridType = "geometric" then
    .ok (geometricGridPrices lower r n)
  else .error .invalidGridType

/-- `GridOrder.create_grid_strategy` (`grid_orders.py` lines 23-120).
The `validate_symbol` call is elided (all claims presume a valid symbol); the
remaining validations and checks are in source order: `validate_price` on both
bounds, then `upper <= lower`, `grid_number < 2`, `total_investment <= 0`, then
the grid-type branch.  `r` is the geometric-ratio parameter described at
`geometricGridPrices` (unused on the arithmetic path). -/
def create_grid_strategy (upper lower : ℚ) (gridNumber : ℕ)
    (totalInvestment : ℚ) (gridType : String) (r : ℚ) :
    Except VError GridStrategy :=
  match validate_price upper with
  | .error e => .error e
  | .ok upperV =>
    match validate_price lower with
    | .error e => .error e
    | .ok lowerV =>
      if upperV ≤ lowerV then .error .upperNotAboveLower
      else if gridNumber < 2 then .error .gridNumberTooSmall
      else if totalInvestment ≤ 0 then .error .investmentNotPositive
      else
        match gridPricesFor gridType upperV lowerV gridNumber r with
        | .error e => .error e
        | .ok gridPrices =>
          let investmentPerGrid := totalInvestment / (gridNumber : ℚ)
          .ok { upper_price := upperV
                lower_price := lowerV
                grid_number := gridNumber
                grid_type := gridType
                total_investment := totalInvestment
                grid_prices := gridPrices
                grid_orders := buildGridOrders investmentPerGrid gridPrices 0 }

/-- `GridOrder.create_martingale_grid` (`grid_orders.py` lines 293-369).
`validate_symbol` elided; `validate_price` on the base price; checks
`grid_number < 2` then `multiplier <= 1.0`.  Note: the source performs NO check
on `total_investment` here.  Levels (lines 320-345): `price_step = base * 0.01`;
level `i` has position size `total_investment * mult^i / sum_j mult^j`,
`buy_price = base - i*step`, `sell_price = base + i*step`, quantities
`position / price`. -/
def create_martingale_grid (basePrice : ℚ) (gridNumber : ℕ)
    (totalInvestment mult : ℚ) : Except VError GridStrategy :=
  match validate_price basePrice with
  | .error e => .error e
  | .ok baseV =>
    if gridNumber < 2 then .error .gridNumberTooSmall
    else if mult ≤ 1 then .error .multiplierTooSmall
    else
      let priceStep := baseV * (1 / 100)
      let weightSum := ((List.range gridNumber).map fun j => mult ^ j).sum
      let levels := (List.range gridNumber).map fun (i : ℕ) =>
        let position := totalInvestment * mult ^ i / weightSum
        let buyPrice := baseV - (i : ℚ) * priceStep
        let sellPrice := baseV + (i : ℚ) * priceStep
        { level := i + 1
          buy_price := buyPrice
          buy_quantity := position / buyPrice
          sell_price := sellPrice
          sell_quantity := position / sellPrice
          investment := position
          potential_profit := 0
          mult_pow := mult ^ i : GridLevel }
      .ok { upper_price := baseV
            lower_price := baseV
            grid_number := gridNumber
            grid_type := "martingale"
            total_investment := totalInvestment
            grid_prices := []
            grid_orders := levels }

/-! ### Basic lemmas about the grid planner -/

theorem validate_price_ok {p : ℚ} (h1 : 0 < p) (h2 : p ≤ 1000000) :
    validate_price p = .ok p := by
  unfold validate_price
  rw [if_neg (by linarith), if_neg (by linarith)]

theorem buildGridOrders_length (inv : ℚ) :
    ∀ (ps : List ℚ) (i : ℕ), (buildGridOrders inv ps i).length = ps.length - 1
  | [], _ => rfl
  | [_], _ => rfl
  | p1 :: p2 :: rest, i => by
      simp only [buildGridOrders, List.length_cons]
      rw [buildGridOrders_length inv (p2 :: rest) (i + 1)]
      simp

theorem buildGridOrders_mem (inv : ℚ) :
    ∀ (ps : List ℚ) (i : ℕ), ∀ l ∈ buildGridOrders inv ps i,
      l.investment = inv ∧ l.buy_quantity = inv / l.buy_price
  | [], _, l, hl => by simp [buildGridOrders] at hl
  | [_], _, l, hl => by simp [buildGridOrders] at hl
  | p1 :: p2 :: rest, i, l, hl => by
      simp only [buildGridOrders, List.mem_cons] at hl
      rcases hl with rfl | hl
      · exact ⟨rfl, rfl⟩
      · exact buildGridOrders_mem inv (p2 :: rest) (i + 1) l hl

theorem buildGridOrders_sum (inv : ℚ) :
    ∀ (ps : List ℚ) (i : ℕ),
      ((buildGridOrders inv ps i).map (·.investment)).sum =
        ((ps.length - 1 : ℕ) : ℚ) * inv
  | [], _ => by simp [buildGridOrders]
  | [_], _ => by simp [buildGridOrders]
  | p1 :: p2 :: rest, i => by
      simp only [buildGridOrders, List.map_cons, List.sum_cons]
      rw [buildGridOrders_sum inv (p2 :: rest) (i + 1)]
      simp only [List.length_cons, Nat.succ_sub_one]
      push_cast
      ring

theorem buildGridOrders_buy_lt_sell (inv : ℚ) :
    ∀ (ps : List ℚ) (i : ℕ), ps.Pairwise (· < ·) →
      ∀ l ∈ buildGridOrders inv ps i, l.buy_price < l.sell_price
  | [], _, _, l, hl => by simp [buildGridOrders] at hl
  | [_], _, _, l, hl => by simp [buildGridOrders] at hl
  | p1 :: p2 :: rest, i, hp, l, hl => by
      simp only [buildGridOrders, List.mem_cons] at hl
      rcases hl with rfl | hl
      · exact (List.pairwise_cons.mp hp).1 p2 (List.mem_cons_self _ _)
      · exact buildGridOrders_buy_lt_sell inv (p2 :: rest) (i + 1)
          (List.pairwise_cons.mp hp).2 l hl

theorem arithmeticGridPrices_length (lower step : ℚ) (n : ℕ) :
    (arithmeticGridPrices lower step n).length = n := by
  simp only [arithmeticGridPrices, List.length_map, List.length_range]

theorem geometricGridPrices_length (lower r : ℚ) (n : ℕ) :
    (geometricGridPrices lower r n).length = n := by
  simp only [geometricGridPrices, List.length_map, List.length_range]

theorem gridPricesFor_arithmetic (upper lower r : ℚ) (n : ℕ) :
    gridPricesFor "arithmetic" upper lower n r =
      .ok (arithmeticGridPrices lower ((upper - lower) / ((n : ℚ) - 1)) n) := by
  rw [gridPricesFor, if_pos rfl]

theorem gridPricesFor_geometric (upper lower r : ℚ) (n : ℕ) :
    gridPricesFor "geometric" upper lower n r =
      .ok (geometricGridPrices lower r n) := by
  rw [gridPricesFor, if_neg (by decide), if_pos rfl]

theorem arithmeticGridPrices_pairwise {step : ℚ} (lower : ℚ) (h : 0 < step)
    (n : ℕ) : (arithmeticGridPrices lower step n).Pairwise (· < ·) := by
  unfold arithmeticGridPrices
  refine List.Pairwise.map _ ?_ (List.pairwise_lt_range n)
  intro a b hab
  have hq : (a : ℚ) < b := by exact_mod_cast hab
  have := mul_lt_mul_of_pos_right hq h
  linarith

theorem geometricGridPrices_pairwise {lower r : ℚ} (hl : 0 < lower)
    (hr : 1 < r) (n : ℕ) : (geometricGridPrices lower r n).Pairwise (· < ·) := by
  unfold geometricGridPrices
  refine List.Pairwise.map _ ?_ (List.pairwise_lt_range n)
  intro a b hab
  exact mul_lt_mul_of_pos_left (pow_lt_pow_right₀ hr hab) hl

theorem one_lt_of_pow_eq {r q : ℚ} {k : ℕ} (hr : 0 < r) (h : r ^ k = q)
    (hq : 1 < q) : 1 < r := by
  by_contra hle
  push_neg at hle
  have : r ^ k ≤ 1 := pow_le_one₀ hr.le hle
  rw [h] at this
  linarith

/-! ### Claims C2, C3, C4 -/

/-- C2 counterexample: on Scenario A's inputs (arithmetic, upper=105, lower=95,
n=3, investment=300) the per-level investment shares sum to 200, not to the
total investment 300 — the planner creates `grid_number - 1` levels, each with
share `total_investment / grid_number`. -/
theorem grid_investment_sum_counterexample :
    ((create_grid_strategy 105 95 3 300 "arithmetic" 0).toOption.map
      fun s => (s.grid_orders.map (·.investment)).sum) = some 200 ∧
    (200 : ℚ) ≠ 300 := by
  constructor
  · simp only [create_grid_strategy, validate_price, gridPricesFor,
      arithmeticGridPrices]
    norm_num [List.range_succ, buildGridOrders, Except.toOption]
  · norm_num

/-- C2 (amended): for every valid arithmetic or geometric grid-planner input,
each level's investment share is `total_investment / gridNumber` and its buy
quantity is that share divided by the level's buy price, while the sum of the
shares over the `gridNumber - 1` levels equals
`total_investment * (gridNumber - 1) / gridNumber` (not the full investment). -/
theorem grid_investment_shares (upper lower inv r : ℚ) (n : ℕ) (gt : String)
    (hlow : 0 < lower) (hup : lower < upper) (hbound : upper ≤ 1000000)
    (hn : 2 ≤ n) (hinv : 0 < inv)
    (hty : gt = "arithmetic" ∨ gt = "geometric") :
    ∃ s, create_grid_strategy upper lower n inv gt r = .ok s ∧
      s.grid_orders.length = n - 1 ∧
      (∀ l ∈ s.grid_orders,
        l.investment = inv / n ∧ l.buy_quantity = (inv / n) / l.buy_price) ∧
      (s.grid_orders.map (·.investment)).sum = inv * ((n : ℚ) - 1) / n := by
  have hgp : ∃ ps, gridPricesFor gt upper lower n r = .ok ps ∧ ps.length = n := by
    rcases hty with rfl | rfl
    · exact ⟨_, gridPricesFor_arithmetic upper lower r n,
        arithmeticGridPrices_length _ _ _⟩
    · exact ⟨_, gridPricesFor_geometric upper lower r n,
        geometricGridPrices_length _ _ _⟩
  obtain ⟨ps, hps, hlen⟩ := hgp
  simp only [create_grid_strategy, validate_price_ok (by linarith : (0:ℚ) < upper) hbound,
    validate_price_ok hlow (by linarith : lower ≤ 1000000)]
  rw [if_neg (by simp only [not_le]; exact hup),
    if_neg (by omega), if_neg (by simp only [not_le]; exact hinv), hps]
  refine ⟨_, rfl, ?_, ?_, ?_⟩
  · rw [buildGridOrders_length, hlen]
  · exact buildGridOrders_mem _ _ _
  · rw [buildGridOrders_sum, hlen]
    have h1 : ((n - 1 : ℕ) : ℚ) = (n : ℚ) - 1 := by
      have : 1 ≤ n := by omega
      push_cast [this]
      ring
    rw [h1]
    ring

/-- C2 witness: Scenario A instantiation of `grid_investment_shares`. -/
theorem grid_investment_shares_witness :
    ∃ s, create_grid_strategy 105 95 3 300 "arithmetic" 0 = .ok s ∧
      s.grid_orders.length = 3 - 1 ∧
      (∀ l ∈ s.grid_orders,
        l.investment = 300 / 3 ∧ l.buy_quantity = (300 / 3) / l.buy_price) ∧
      (s.grid_orders.map (·.investment)).sum = 300 * ((3 : ℚ) - 1) / 3 :=
  grid_investment_shares 105 95 300 0 3 "arithmetic" (by norm_num) (by norm_num)
    (by norm_num) (by norm_num) (by norm_num) (Or.inl rfl)

/-- C3 counterexample: the martingale planner (base=100, n=2, investment=1000,
multiplier=2) produces a level with `buy_price = sell_price = base_price`
(level 1, where the price offset `i * step` is zero), so `buy_price < sell_price`
fails. -/
theorem grid_martingale_level_not_ordered :
    (match create_martingale_grid 100 2 1000 2 with
     | .ok s => ∃ l ∈ s.grid_orders, ¬ l.buy_price < l.sell_price
     | .error _ => False) := by
  simp only [create_martingale_grid, validate_price]
  norm_num [List.range_succ]

/-- C3 (amended): for every arithmetic or geometric strategy the planner
returns on validated inputs, every level satisfies `buy_price < sell_price` and
the ladder's grid prices are strictly increasing; the martingale mode violates
this at its first level (see the counterexample).  For the geometric mode the
source's ratio `(upper/lower)^(1/(n-1))` is characterised by the hypotheses
`0 < r` and `r ^ (n-1) = upper / lower`. -/
theorem grid_levels_ordered (upper lower inv r : ℚ) (n : ℕ) (gt : String)
    (hlow : 0 < lower) (hup : lower < upper) (hbound : upper ≤ 1000000)
    (hn : 2 ≤ n) (hinv : 0 < inv)
    (hty : gt = "arithmetic" ∨
      (gt = "geometric" ∧ 0 < r ∧ r ^ (n - 1) = upper / lower)) :
    ∃ s, create_grid_strategy upper lower n inv gt r = .ok s ∧
      s.grid_prices.Pairwise (· < ·) ∧
      ∀ l ∈ s.grid_orders, l.buy_price < l.sell_price := by
  have hgp : ∃ ps, gridPricesFor gt upper lower n r = .ok ps ∧
      ps.Pairwise (· < ·) := by
    rcases hty with rfl | ⟨rfl, hr0, hreq⟩
    · refine ⟨_, gridPricesFor_arithmetic upper lower r n, ?_⟩
      refine arithmeticGridPrices_pairwise _ ?_ _
      have hn1 : (0 : ℚ) < (n : ℚ) - 1 := by
        have : (2 : ℚ) ≤ (n : ℚ) := by exact_mod_cast hn
        linarith
      exact div_pos (by linarith) hn1
    · refine ⟨_, gridPricesFor_geometric upper lower r n, ?_⟩
      refine geometricGridPrices_pairwise hlow ?_ _
      exact one_lt_of_pow_eq hr0 hreq ((one_lt_div hlow).mpr hup)
  obtain ⟨ps, hps, hpw⟩ := hgp
  simp only [create_grid_strategy, validate_price_ok (by linarith : (0:ℚ) < upper) hbound,
    validate_price_ok hlow (by linarith : lower ≤ 1000000)]
  rw [if_neg (by simp only [not_le]; exact hup),
    if_neg (by omega), if_neg (by simp only [not_le]; exact hinv), hps]
  exact ⟨_, rfl, hpw, buildGridOrders_buy_lt_sell _ _ _ hpw⟩

/-- C3 witness: `grid_levels_ordered` at a geometric instance with an exact
rational ratio (upper=380, lower=95, n=3, ratio=2: 2^2 = 380/95 = 4). -/
theorem grid_levels_ordered_witness :
    ∃ s, create_grid_strategy 380 95 3 300 "geometric" 2 = .ok s ∧
      s.grid_prices.Pairwise (· < ·) ∧
      ∀ l ∈ s.grid_orders, l.buy_price < l.sell_price :=
  grid_levels_ordered 380 95 300 2 3 "geometric" (by norm_num) (by norm_num)
    (by norm_num) (by norm_num) (by norm_num)
    (Or.inr ⟨rfl, by norm_num, by norm_num⟩)

/-- Order side of a placed grid order. -/
inductive OrderSide where
  | buy
  | sell
  deriving DecidableEq, Repr

/-- One entry of `execution_results["placed_orders"]` (`grid_orders.py` lines
171-190): level index, side, venue-assigned order id, price and quantity. -/
structure PlacedOrderInfo where
  grid_level : ℕ
  order_type : OrderSide
  order_id : ℕ
  price : ℚ
  quantity : ℚ
  deriving DecidableEq, Repr

/-- Whether each placement call of one level raises, when it is made: the
per-level `try` of `grid_orders.py` lines 165-197 catches any exception from
`place_limit_buy_order` / `place_limit_sell_order`. -/
structure LevelPlacementEnv where
  buyRaises : Bool
  sellRaises : Bool
  deriving DecidableEq, Repr

/-- Whether the level's `try` block raises (`grid_orders.py` lines 165-197):
the buy call is made when the current price is above the level's buy price and
may raise; only if it did not raise is the sell call made (when the current
price is below the level's sell price), which may itself raise. -/
def levelRaises (currentPrice : ℚ) (l : GridLevel) (e : LevelPlacementEnv) :
    Bool :=
  if decide (l.buy_price < currentPrice) && e.buyRaises then true
  else decide (currentPrice < l.sell_price) && e.sellRaises

/-- The body of the initial-placement loop for one grid level
(`grid_orders.py` lines 164-197): a buy order is placed if the current price is
above the level's buy price, then a sell order if the current price is below
the level's sell price.  The level's `try` stops at the first raising call
(`except` at line 196 logs and continues the outer loop): a raising buy call
appends nothing and skips the sell; a raising sell call leaves the already
appended buy.  Venue-assigned order ids are modelled by `idOf` applied to the
number of orders placed so far. -/
def placeLevelOrders (currentPrice : ℚ) (idOf : ℕ → ℕ) (l : GridLevel)
    (e : LevelPlacementEnv) (acc : List PlacedOrderInfo) :
    List PlacedOrderInfo :=
  if decide (l.buy_price < currentPrice) && e.buyRaises then acc
  else
    let acc1 := if l.buy_price < currentPrice then
        acc ++ [⟨l.level, .buy, idOf acc.length, l.buy_price, l.buy_quantity⟩]
      else acc
    if decide (currentPrice < l.sell_price) && e.sellRaises then acc1
    else if currentPrice < l.sell_price then
      acc1 ++ [⟨l.level, .sell, idOf acc1.length, l.sell_price, l.sell_quantity⟩]
    else acc1

/-- The initial-placement loop of `execute_grid_strategy` (`grid_orders.py`
lines 162-198): after a level completes WITHOUT raising, the loop breaks once
`len(placed_orders) >= max_concurrent_orders` (line 193); the check sits inside
the `try`, so a level whose placement raised skips it and the loop continues
with the next level.  `k` is the position of the level, indexing its
environment. -/
def placeInitialGo (currentPrice : ℚ) (cap : ℕ) (idOf : ℕ → ℕ)
    (env : ℕ → LevelPlacementEnv) :
    List GridLevel → ℕ → List PlacedOrderInfo → List PlacedOrderInfo
  | [], _, acc => acc
  | l :: rest, k, acc =>
    let acc2 := placeLevelOrders currentPrice idOf l (env k) acc
    if levelRaises currentPrice l (env k) then
      placeInitialGo currentPrice cap idOf env rest (k + 1) acc2
    else if cap ≤ acc2.length then acc2
    else placeInitialGo currentPrice cap idOf env rest (k + 1) acc2

/-- Initial grid order placement of `execute_grid_strategy`, starting from the
empty `placed_orders` list. -/
def place_initial_grid_orders (levels : List GridLevel) (currentPrice : ℚ)
    (cap : ℕ) (idOf : ℕ → ℕ) (env : ℕ → LevelPlacementEnv) :
    List PlacedOrderInfo :=
  placeInitialGo currentPrice cap idOf env levels 0 []

/-- Number of levels in the ladder whose placement raises (these skip the
in-`try` cap check). -/
def raisedLevelCount (currentPrice : ℚ) (env : ℕ → LevelPlacementEnv) :
    List GridLevel → ℕ → ℕ
  | [], _ => 0
  | l :: rest, k =>
    (if levelRaises currentPrice l (env k) then 1 else 0) +
      raisedLevelCount currentPrice env rest (k + 1)

theorem placeLevelOrders_length (currentPrice : ℚ) (idOf : ℕ → ℕ)
    (l : GridLevel) (e : LevelPlacementEnv) (acc : List PlacedOrderInfo) :
    acc.length ≤ (placeLevelOrders currentPrice idOf l e acc).length ∧
    (placeLevelOrders currentPrice idOf l e acc).length ≤ acc.length + 2 ∧
    (levelRaises currentPrice l e = true →
      (placeLevelOrders currentPrice idOf l e acc).length ≤ acc.length + 1) := by
  unfold placeLevelOrders levelRaises
  split_ifs <;> simp_all

theorem placeInitialGo_length_le (currentPrice : ℚ) (cap : ℕ) (idOf : ℕ → ℕ)
    (env : ℕ → LevelPlacementEnv) :
    ∀ (levels : List GridLevel) (k : ℕ) (acc : List PlacedOrderInfo) (d : ℕ),
      acc.length < cap + d →
      (placeInitialGo currentPrice cap idOf env levels k acc).length ≤
        cap + 1 + d + raisedLevelCount currentPrice env levels k
  | [], k, acc, d, h => by
      rw [placeInitialGo, raisedLevelCount]
      omega
  | l :: rest, k, acc, d, h => by
      rw [placeInitialGo, raisedLevelCount]
      have hb := placeLevelOrders_length currentPrice idOf l (env k) acc
      by_cases hr : levelRaises currentPrice l (env k) = true
      · rw [if_pos hr, if_pos hr]
        have hrec := placeInitialGo_length_le currentPrice cap idOf env rest
          (k + 1) (placeLevelOrders currentPrice idOf l (env k) acc) (d + 1)
          (by have := hb.2.2 hr; omega)
        omega
      · rw [if_neg hr, if_neg hr]
        by_cases hcapb :
            cap ≤ (placeLevelOrders currentPrice idOf l (env k) acc).length
        · rw [if_pos hcapb]
          omega
        · rw [if_neg hcapb]
          have hrec := placeInitialGo_length_le currentPrice cap idOf env rest
            (k + 1) (placeLevelOrders currentPrice idOf l (env k) acc) d
            (by omega)
          omega

/-- C6 counterexample: two straddled levels (buy 95, sell 105, current price
100) and `max_concurrent_orders = 1`.  Level 1's sell placement raises: its buy
is placed (1 order) but the in-`try` cap check is skipped, so the loop
continues; level 2 places both sides — 3 initial orders in total, exceeding the
claimed bound of 1 (and even cap + 1 = 2). -/
theorem grid_cap_exceeded_counterexample :
    (place_initial_grid_orders
        [⟨1, 95, 1, 105, 1, 100, 10, 1⟩, ⟨2, 95, 1, 105, 1, 100, 10, 1⟩] 100 1
        (fun k => k)
        (fun k => if k = 0 then ⟨false, true⟩ else ⟨false, false⟩)).length = 3 ∧
    1 < 3 := by
  refine ⟨?_, by norm_num⟩
  norm_num [place_initial_grid_orders, placeInitialGo, placeLevelOrders,
    levelRaises]

/-- C6 (amended): for every grid execution with cap
`max_concurrent_orders ≥ 1`, the number of initial grid orders placed never
exceeds `max_concurrent_orders + 1` plus the number of levels whose placement
raised: the cap is checked only after a level completes without an exception
(by which point the level may have added two orders), and a level whose buy or
sell placement raises skips the check entirely while possibly having placed
one order. -/
theorem grid_cap_bound (levels : List GridLevel) (currentPrice : ℚ) (cap : ℕ)
    (idOf : ℕ → ℕ) (env : ℕ → LevelPlacementEnv) (hcap : 1 ≤ cap) :
    (place_initial_grid_orders levels currentPrice cap idOf env).length ≤
      cap + 1 + raisedLevelCount currentPrice env levels 0 :=
  placeInitialGo_length_le currentPrice cap idOf env levels 0 [] 0
    (by simpa using hcap)

/-- C6 witness: `grid_cap_bound` at the counterexample's input — the bound
`cap + 1 + raised = 1 + 1 + 1 = 3` is met with equality there. -/
theorem grid_cap_bound_witness :
    (place_initial_grid_orders
        [⟨1, 95, 1, 105, 1, 100, 10, 1⟩, ⟨2, 95, 1, 105, 1, 100, 10, 1⟩] 100 1
        (fun k => k)
        (fun k => if k = 0 then ⟨false, true⟩ else ⟨false, false⟩)).length ≤
      1 + 1 + raisedLevelCount 100
        (fun k => if k = 0 then ⟨false, true⟩ else ⟨false, false⟩)
        [⟨1, 95, 1, 105, 1, 100, 10, 1⟩, ⟨2, 95, 1, 105, 1, 100, 10, 1⟩] 0 :=
  grid_cap_bound
    [⟨1, 95, 1, 105, 1, 100, 10, 1⟩, ⟨2, 95, 1, 105, 1, 100, 10, 1⟩] 100 1
    (fun k => k)
    (fun k => if k = 0 then ⟨false, true⟩ else ⟨false, false⟩) (by norm_num)

/-- Venue order status as read back by `client.get_order`. -/
inductive OrderStatus where
  | newOrder
  | partFilled
  | filled
  | canceled
  | rejected
  deriving DecidableEq, Repr

/-- Snapshot returned by `client.get_order(symbol, order_id)`:
`{status, executedQty, avgPrice}`. -/
structure OrderSnapshot where
  status : OrderStatus
  executedQty : ℚ
  avgPrice : ℚ
  deriving DecidableEq, Repr

/-- What one poll iteration of `_monitor_and_rebalance_grid` observes from the
venue: the current open-order id list (`client.get_open_orders`) and the
snapshot each queried id returns (`client.get_order`). -/
structure PollObservation where
  openOrderIds : List ℕ
  getOrder : ℕ → OrderSnapshot

/-- One entry of `execution_results["executed_orders"]` (`grid_orders.py`
lines 257-285).  For a filled buy, `profit` holds the dict's
`potential_profit`; for a filled sell it holds `realized_profit` (the amount
also added to `total_profit`); `paired_price` is the planned opposite-side
price of the level. -/
structure ExecutedRecord where
  grid_level : ℕ
  filled_side : OrderSide
  filled_order_id : ℕ
  filled_price : ℚ
  filled_qty : ℚ
  paired_price : ℚ
  profit : ℚ
  deriving DecidableEq, Repr

/-- The rebalancer's mutable accumulation inside `execution_results`:
`total_profit` and `executed_orders`. -/
structure GridExecState where
  total_profit : ℚ
  executed_orders : List ExecutedRecord
  deriving DecidableEq, Repr

/-- The per-placed-order body of the poll loop (`grid_orders.py` lines
236-285): if the order id is no longer among the open orders, query its
status; on `FILLED`, a buy triggers placement of the paired sell (recorded, no
profit change) while a sell adds `(executed_price - planned_buy_price) *
executed_quantity` to `total_profit` and triggers the paired buy.  The paired
orders submitted here are appended to `executed_orders` only — the source never
adds them to `placed_orders`, so later polls do not track them.  Note that the
source never removes a processed order from `placed_orders` either. -/
def processPlacedOrder (gridOrders : List GridLevel) (obs : PollObservation)
    (st : GridExecState) (po : PlacedOrderInfo) : GridExecState :=
  if po.order_id ∈ obs.openOrderIds then st
  else
    let snap := obs.getOrder po.order_id
    if snap.status = .filled then
      match po.order_type with
      | .buy =>
        let sellPrice := (gridOrders.getD (po.grid_level - 1) default).sell_price
        { st with executed_orders := st.executed_orders ++
            [⟨po.grid_level, .buy, po.order_id, snap.avgPrice, snap.executedQty,
              sellPrice, (sellPrice - snap.avgPrice) * snap.executedQty⟩] }
      | .sell =>
        let buyPrice := (gridOrders.getD (po.grid_level - 1) default).buy_price
        let profit := (snap.avgPrice - buyPrice) * snap.executedQty
        { total_profit := st.total_profit + profit,
          executed_orders := st.executed_orders ++
            [⟨po.grid_level, .sell, po.order_id, snap.avgPrice, snap.executedQty,
              buyPrice, profit⟩] }
    else st

/-- `GridOrder._monitor_and_rebalance_grid` (`grid_orders.py` lines 220-291):
a sequence of polls (one per 30-second iteration of the monitoring window),
each scanning the full, never-shrinking `placed_orders` list. -/
def monitor_and_rebalance_grid (gridOrders : List GridLevel)
    (placed : List PlacedOrderInfo) (polls : List PollObservation)
    (st : GridExecState) : GridExecState :=
  polls.foldl (fun s obs => placed.foldl (processPlacedOrder gridOrders obs) s) st

/-- C1: the rebalancer's ledger accounting contradicts the claim on three
counts, shown on one concrete grid (level 1: buy 95, sell 100, qty 1).
(1) A single filled initial sell order adds `(100 - 95) * 1 = 5` to
`total_profit` on its first observation — profit accrues without any completed
round trip.  (2) Observing the same terminal sell on a second poll adds the
same 5 again (`total_profit = 10`): the processed order is never removed from
`placed_orders` nor remembered, so re-observation double-counts.  (3) For a
buy-then-paired-sell round trip (initial buy id 3 fills; the paired sell the
code submits is not tracked in `placed_orders`), `total_profit` stays 0 — the
round-trip profit is never accrued at all. -/
theorem grid_rebalancer_profit_double_count :
    (monitor_and_rebalance_grid [⟨1, 95, 1, 100, 1, 95, 5, 1⟩]
        [⟨1, .sell, 7, 100, 1⟩]
        [⟨[], fun _ => ⟨.filled, 1, 100⟩⟩] ⟨0, []⟩).total_profit = 5 ∧
    (monitor_and_rebalance_grid [⟨1, 95, 1, 100, 1, 95, 5, 1⟩]
        [⟨1, .sell, 7, 100, 1⟩]
        [⟨[], fun _ => ⟨.filled, 1, 100⟩⟩,
         ⟨[], fun _ => ⟨.filled, 1, 100⟩⟩] ⟨0, []⟩).total_profit = 10 ∧
    (monitor_and_rebalance_grid [⟨1, 95, 1, 100, 1, 95, 5, 1⟩]
        [⟨1, .buy, 3, 95, 1⟩]
        [⟨[], fun _ => ⟨.filled, 1, 95⟩⟩,
         ⟨[], fun _ => ⟨.filled, 1, 100⟩⟩] ⟨0, []⟩).total_profit = 0 := by
  refine ⟨?_, ?_, ?_⟩ <;>
    norm_num [monitor_and_rebalance_grid, processPlacedOrder, List.foldl,
      List.getD]

/-! ### Order lifecycle monitor (`limit_orders.py` lines 375-411) -/

/-- A transport/HTTP failure raised by a `client.get_order` call. -/
inductive QueryError where
  | networkError
  deriving DecidableEq, Repr

/-- Venue commands issued by the monitor: an order query at poll index `t`, or
an order cancellation (the source's monitor never issues the latter). -/
inductive VenueAction where
  | getOrderCall (t : ℕ)
  | cancelOrderCall
  deriving DecidableEq, Repr

/-- The terminal statuses `monitor_order_fill` returns on (`limit_orders.py`
lines 391-401): `FILLED`, `CANCELED`, `REJECTED`.  Any other status continues
the polling loop. -/
def isTerminal : OrderStatus → Bool
  | .filled => true
  | .canceled => true
  | .rejected => true
  | _ => false

/-- `LimitOrderManager.monitor_order_fill` (`limit_orders.py` lines 375-411).
`q u` is what the `u`-th `get_order` call yields (a snapshot, or a raised
transport error); `fuel` is the number of 5-second poll iterations that fit in
the timeout budget.  Within the loop, a query either raises — the method's
only `except` block logs and re-raises, so the error propagates — or returns a
snapshot; a terminal snapshot is returned, otherwise the loop continues.  When
the budget is exhausted the source issues one final `get_order` and returns its
result.  The second component records every venue command issued. -/
def monitor_order_fill (q : ℕ → Except QueryError OrderSnapshot) :
    ℕ → ℕ → Except QueryError OrderSnapshot × List VenueAction
  | t, 0 => (q t, [.getOrderCall t])
  | t, fuel + 1 =>
    match q t with
    | .error e => (.error e, [.getOrderCall t])
    | .ok snap =>
      if isTerminal snap.status then (.ok snap, [.getOrderCall t])
      else
        let rest := monitor_order_fill q (t + 1) fuel
        (rest.1, .getOrderCall t :: rest.2)

/-- C5 counterexample: with a poll budget of 3 iterations remaining, a single
failing `get_order` call makes the monitor abort with the error after exactly
one query — the failure is propagated, not retried within the remaining
budget. -/
theorem monitor_query_failure_propagates :
    monitor_order_fill (fun _ => .error .networkError) 0 3 =
      (.error .networkError, [.getOrderCall 0]) := rfl

/-- C5 (amended): for every monitored order, (1) a query failure is propagated
— the monitor aborts with the error rather than retrying within the remaining
budget; (2) the monitor never issues a cancel command; (3) when every in-budget
query succeeds with a non-terminal status, the monitor runs the full budget and
returns the snapshot of one final query issued at timeout. -/
theorem monitor_failure_and_timeout_behavior
    (q : ℕ → Except QueryError OrderSnapshot) (t fuel : ℕ) :
    (∀ e, q t = .error e →
      monitor_order_fill q t (fuel + 1) = (.error e, [.getOrderCall t])) ∧
    VenueAction.cancelOrderCall ∉ (monitor_order_fill q t fuel).2 ∧
    ((∀ u, u < fuel → ∃ s, q (t + u) = .ok s ∧ isTerminal s.status = false) →
      (monitor_order_fill q t fuel).1 = q (t + fuel)) := by
  refine ⟨?_, ?_, ?_⟩
  · intro e he
    simp only [monitor_order_fill, he]
  · induction fuel generalizing t with
    | zero =>
      rw [monitor_order_fill]
      simp
    | succ n ih =>
      rw [monitor_order_fill]
      cases hq : q t with
      | error e => simp
      | ok snap =>
        by_cases hterm : isTerminal snap.status
        · simp [hterm]
        · simp only [hterm, Bool.false_eq_true, if_false, List.mem_cons]
          rintro (hc | hc)
          · exact absurd hc (by simp)
          · exact absurd hc (ih (t + 1))
  · induction fuel generalizing t with
    | zero =>
      intro _
      rw [monitor_order_fill]
      simp
    | succ n ih =>
      intro h
      obtain ⟨s, hs, hterm⟩ := h 0 (by omega)
      rw [monitor_order_fill]
      simp only [Nat.add_zero] at hs
      rw [hs]
      simp only [hterm, Bool.false_eq_true, if_false]
      have := ih (t + 1) (fun u hu => by
        obtain ⟨s', hs', ht'⟩ := h (u + 1) (by omega)
        exact ⟨s', by rw [← hs']; ring_nf, ht'⟩)
      rw [this]
      ring_nf

/-- C5 witness: the amended theorem instantiated twice — an always-failing
query trace (the error propagates after one call) and an always-open order
(the monitor runs its full budget, cancels nothing, and returns the final
query's snapshot). -/
theorem monitor_failure_and_timeout_behavior_witness :
    monitor_order_fill (fun _ => .error .networkError) 5 4 =
      (.error .networkError, [.getOrderCall 5]) ∧
    (monitor_order_fill (fun _ => .ok ⟨.newOrder, 0, 0⟩) 0 2).1 =
      .ok ⟨.newOrder, 0, 0⟩ ∧
    VenueAction.cancelOrderCall ∉
      (monitor_order_fill (fun _ => .ok ⟨.newOrder, 0, 0⟩) 0 2).2 :=
  ⟨(monitor_failure_and_timeout_behavior (fun _ => .error .networkError) 5 3).1
      .networkError rfl,
   (monitor_failure_and_timeout_behavior (fun _ => .ok ⟨.newOrder, 0, 0⟩) 0 2).2.2
      (fun _ _ => ⟨⟨.newOrder, 0, 0⟩, rfl, rfl⟩),
   (monitor_failure_and_timeout_behavior (fun _ => .ok ⟨.newOrder, 0, 0⟩) 0 2).2.1⟩

/-! ### TWAP scheduler (`twap.py` lines 23-263) -/

/-- Status strings of the chunk-result dicts built in `twap.py`. -/
inductive ChunkStatus where
  | executed
  | pending
  | cancelled
  | failed
  deriving DecidableEq, Repr

/-- One element of `execution_results["chunks"]`.  The failed / pending /
cancelled dicts in the source carry no `executed_quantity` / `cost` keys; the
loop reads them with `.get(key, 0)`, so they are embedded as fields equal to 0.
`slippage` / `within_slippage` exist only on executed market chunks and default
otherwise. -/
structure ChunkRecord where
  chunk_number : ℕ
  status : ChunkStatus
  executed_quantity : ℚ
  cost : ℚ
  price : ℚ
  slippage : ℚ := 0
  within_slippage : Bool := true
  deriving DecidableEq, Repr

instance : Inhabited ChunkRecord := ⟨⟨0, .pending, 0, 0, 0, 0, true⟩⟩

/-- What the venue does with one chunk, abstracting the calls inside
`_execute_market_chunk` / `_execute_limit_chunk` and the surrounding loop body:
`outerError` = an exception in the loop body around the executor (caught at
`twap.py` lines 130-136), `execError` = an exception inside the executor
(caught by its own `except`), `noOrderId` = the placement response carried no
order id, `filledOrder qty price` = `get_order` reported `FILLED` with those
execution details, `notFilled` = a non-`FILLED` status at the read-back. -/
inductive ChunkEvent where
  | outerError
  | execError
  | noOrderId
  | filledOrder (qty price : ℚ)
  | notFilled
  deriving DecidableEq, Repr

/-- Per-chunk venue environment: the ticker price read at the top of the
iteration and the chunk's execution event. -/
structure ChunkEnv where
  currentPrice : ℚ
  event : ChunkEvent

/-- `TWAPOrder._execute_market_chunk` (`twap.py` lines 158-205): a filled order
yields an `executed` record with cost `qty * avg` and realized slippage
`|avg - expected| / expected`; an exception yields a `failed` record; no order
id or a non-filled status falls through to `pending`.  (The loop-level
`outerError` produces the same minimal failed record, so it is mapped here
too.) -/
def execute_market_chunk (chunkNumber : ℕ) (expectedPrice maxSlippage : ℚ)
    (ev : ChunkEvent) : ChunkRecord :=
  match ev with
  | .filledOrder qty avg =>
    let slip := |avg - expectedPrice| / expectedPrice
    { chunk_number := chunkNumber, status := .executed, executed_quantity := qty,
      price := avg, cost := qty * avg, slippage := slip,
      within_slippage := decide (slip ≤ maxSlippage) }
  | .execError =>
    { chunk_number := chunkNumber, status := .failed, executed_quantity := 0,
      cost := 0, price := 0 }
  | .outerError =>
    { chunk_number := chunkNumber, status := .failed, executed_quantity := 0,
      cost := 0, price := 0 }
  | _ =>
    { chunk_number := chunkNumber, status := .pending, executed_quantity := 0,
      cost := 0, price := 0 }

/-- `TWAPOrder._execute_limit_chunk` (`twap.py` lines 207-263): a filled order
yields `executed`; a non-filled status is cancelled at the short wait's expiry
(`cancel_order`, record `cancelled`); an exception yields `failed`; no order id
yields `pending`. -/
def execute_limit_chunk (chunkNumber : ℕ) (ev : ChunkEvent) : ChunkRecord :=
  match ev with
  | .filledOrder qty avg =>
    { chunk_number := chunkNumber, status := .executed, executed_quantity := qty,
      price := avg, cost := qty * avg }
  | .notFilled =>
    { chunk_number := chunkNumber, status := .cancelled, executed_quantity := 0,
      cost := 0, price := 0 }
  | .noOrderId =>
    { chunk_number := chunkNumber, status := .pending, executed_quantity := 0,
      cost := 0, price := 0 }
  | _ =>
    { chunk_number := chunkNumber, status := .failed, executed_quantity := 0,
      cost := 0, price := 0 }

/-- The record produced by iteration `i` of the TWAP loop (`twap.py` lines
91-136), dispatching on `use_limit_orders`. -/
def twapChunkRecord (useLimit : Bool) (maxSlippage : ℚ) (i : ℕ)
    (e : ChunkEnv) : ChunkRecord :=
  if useLimit then execute_limit_chunk (i + 1) e.event
  else execute_market_chunk (i + 1) e.currentPrice maxSlippage e.event

/-- The `execution_results` dict of `execute_twap_strategy` (`twap.py` lines
76-141): per-chunk records plus the running totals the loop accumulates and
the final average price. -/
structure TwapResults where
  total_quantity : ℚ
  num_chunks : ℕ
  chunks : List ChunkRecord
  total_executed : ℚ
  total_cost : ℚ
  average_price : ℚ
  deriving DecidableEq, Repr

/-- `TWAPOrder.execute_twap_strategy` (`twap.py` lines 23-152).  Validation in
source order (`validate_symbol` / `validate_side` elided): `validate_quantity`
on the total, then `duration <= 0`, `num_chunks <= 0` (ℕ: `= 0`),
`num_chunks > total_quantity`.  The loop runs `for i in range(num_chunks)`;
each iteration appends exactly one record — either the executor's record or,
when the iteration body raises, the minimal failed record — and adds the
record's `executed_quantity` / `cost` (0 for non-executed records) to the
totals.  The submitted chunk size is `total_quantity / num_chunks`; intervals
and jitter affect only wall-clock timing, not the result record.  Finally,
`average_price = total_cost / total_executed` if `total_executed > 0`, else its
initial value 0. -/
def execute_twap_strategy (totalQuantity duration : ℚ) (numChunks : ℕ)
    (useLimit : Bool) (maxSlippage : ℚ) (env : ℕ → ChunkEnv) :
    Except VError TwapResults :=
  match validate_quantity totalQuantity with
  | .error e => .error e
  | .ok tq =>
    if duration ≤ 0 then .error .durationNotPositive
    else if numChunks = 0 then .error .chunksNotPositive
    else if tq < (numChunks : ℚ) then .error .chunksExceedQuantity
    else
      let chunks := (List.range numChunks).map fun (i : ℕ) =>
        twapChunkRecord useLimit maxSlippage i (env i)
      let totalExecuted := (chunks.map (·.executed_quantity)).sum
      let totalCost := (chunks.map (·.cost)).sum
      .ok { total_quantity := tq
            num_chunks := numChunks
            chunks := chunks
            total_executed := totalExecuted
            total_cost := totalCost
            average_price :=
              if 0 < totalExecuted then totalCost / totalExecuted else 0 }

theorem validate_quantity_ok {p : ℚ} (h1 : 0 < p) (h2 : p ≤ 1000000) :
    validate_quantity p = .ok p := by
  unfold validate_quantity
  rw [if_neg (by linarith), if_neg (by linarith)]

theorem getD_map_range {α : Type} (f : ℕ → α) {n i : ℕ} (d : α) (h : i < n) :
    ((List.range n).map f).getD i d = f i := by
  rw [List.getD_eq_getElem?_getD, List.getElem?_map, List.getElem?_range h]
  rfl

theorem twapChunkRecord_number (useLimit : Bool) (maxSlippage : ℚ) (i : ℕ)
    (e : ChunkEnv) :
    (twapChunkRecord useLimit maxSlippage i e).chunk_number = i + 1 := by
  unfold twapChunkRecord execute_limit_chunk execute_market_chunk
  rcases e with ⟨p, ev⟩
  cases useLimit <;> cases ev <;> rfl

theorem twapChunkRecord_failed (useLimit : Bool) (maxSlippage : ℚ) (i : ℕ)
    (e : ChunkEnv)
    (h : e.event = .execError ∨ e.event = .outerError) :
    (twapChunkRecord useLimit maxSlippage i e).status = .failed := by
  unfold twapChunkRecord execute_limit_chunk execute_market_chunk
  rcases e with ⟨p, ev⟩
  rcases h with h | h <;> subst h <;> cases useLimit <;> rfl

theorem twapChunkRecord_not_executed (useLimit : Bool) (maxSlippage : ℚ)
    (i : ℕ) (e : ChunkEnv)
    (h : (twapChunkRecord useLimit maxSlippage i e).status ≠ .executed) :
    (twapChunkRecord useLimit maxSlippage i e).executed_quantity = 0 ∧
    (twapChunkRecord useLimit maxSlippage i e).cost = 0 := by
  revert h
  unfold twapChunkRecord execute_limit_chunk execute_market_chunk
  rcases e with ⟨p, ev⟩
  cases useLimit <;> cases ev <;> intro h <;> first
    | exact ⟨rfl, rfl⟩
    | exact absurd rfl h

/-- C7: for every TWAP run on valid inputs, exactly `numChunks` chunk records
are produced regardless of per-chunk outcomes; each record carries its 1-based
chunk number, and a chunk whose submission or fill raised is recorded as a
`failed` unit while the remaining chunks still run. -/
theorem twap_chunk_count (tq dur maxSlip : ℚ) (c : ℕ) (useLimit : Bool)
    (env : ℕ → ChunkEnv)
    (h1 : 0 < tq) (h2 : tq ≤ 1000000) (h3 : 0 < dur) (h4 : 1 ≤ c)
    (h5 : (c : ℚ) ≤ tq) :
    ∃ r, execute_twap_strategy tq dur c useLimit maxSlip env = .ok r ∧
      r.chunks.length = c ∧
      (∀ i, i < c → (r.chunks.getD i default).chunk_number = i + 1) ∧
      (∀ i, i < c →
        ((env i).event = .execError ∨ (env i).event = .outerError) →
        (r.chunks.getD i default).status = .failed) := by
  simp only [execute_twap_strategy, validate_quantity_ok h1 h2]
  rw [if_neg (by simp only [not_le]; exact h3), if_neg (by omega),
    if_neg (by simp only [not_lt]; exact h5)]
  refine ⟨_, rfl, ?_, ?_, ?_⟩
  · simp only [List.length_map, List.length_range]
  · intro i hi
    rw [getD_map_range _ _ hi, twapChunkRecord_number]
  · intro i hi hev
    rw [getD_map_range _ _ hi, twapChunkRecord_failed _ _ _ _ hev]

/-- C7 witness: two chunks, the first filled and the second raising inside the
executor — both recorded, the second as `failed`. -/
theorem twap_chunk_count_witness :
    ∃ r, execute_twap_strategy 5 10 2 false (1 / 100)
        (fun i => if i = 0 then ⟨100, .filledOrder 1 100⟩ else ⟨100, .execError⟩)
        = .ok r ∧
      r.chunks.length = 2 ∧
      (∀ i, i < 2 → (r.chunks.getD i default).chunk_number = i + 1) ∧
      (∀ i, i < 2 →
        (((fun (i : ℕ) => if i = 0 then (⟨100, .filledOrder 1 100⟩ : ChunkEnv)
            else ⟨100, .execError⟩) i).event = .execError ∨
         ((fun (i : ℕ) => if i = 0 then (⟨100, .filledOrder 1 100⟩ : ChunkEnv)
            else ⟨100, .execError⟩) i).event = .outerError) →
        (r.chunks.getD i default).status = .failed) :=
  twap_chunk_count 5 10 (1 / 100) 2 false _ (by norm_num) (by norm_num)
    (by norm_num) (by norm_num) (by norm_num)

/-- C8: for every TWAP run on valid inputs, the reported average price equals
`total_cost / total_executed` when the executed total is positive and 0
otherwise; the totals are the sums of the per-chunk `executed_quantity` /
`cost` read with default 0, and every non-executed chunk contributes 0 to
both. -/
theorem twap_average_price (tq dur maxSlip : ℚ) (c : ℕ) (useLimit : Bool)
    (env : ℕ → ChunkEnv)
    (h1 : 0 < tq) (h2 : tq ≤ 1000000) (h3 : 0 < dur) (h4 : 1 ≤ c)
    (h5 : (c : ℚ) ≤ tq) :
    ∃ r, execute_twap_strategy tq dur c useLimit maxSlip env = .ok r ∧
      r.average_price =
        (if 0 < r.total_executed then r.total_cost / r.total_executed else 0) ∧
      r.total_executed = (r.chunks.map (·.executed_quantity)).sum ∧
      r.total_cost = (r.chunks.map (·.cost)).sum ∧
      (∀ rec ∈ r.chunks, rec.status ≠ .executed →
        rec.executed_quantity = 0 ∧ rec.cost = 0) := by
  simp only [execute_twap_strategy, validate_quantity_ok h1 h2]
  rw [if_neg (by simp only [not_le]; exact h3), if_neg (by omega),
    if_neg (by simp only [not_lt]; exact h5)]
  refine ⟨_, rfl, rfl, rfl, rfl, ?_⟩
  intro rec hrec hst
  simp only [List.mem_map, List.mem_range] at hrec
  obtain ⟨i, -, rfl⟩ := hrec
  exact twapChunkRecord_not_executed _ _ _ _ hst

/-- C8 witness: one filled limit chunk and one cancelled one — the average is
the cost of the filled chunk divided by its quantity. -/
theorem twap_average_price_witness :
    ∃ r, execute_twap_strategy 4 60 2 true (1 / 100)
        (fun i => if i = 0 then ⟨50, .filledOrder 2 50⟩ else ⟨50, .notFilled⟩)
        = .ok r ∧
      r.average_price =
        (if 0 < r.total_executed then r.total_cost / r.total_executed else 0) ∧
      r.total_executed = (r.chunks.map (·.executed_quantity)).sum ∧
      r.total_cost = (r.chunks.map (·.cost)).sum ∧
      (∀ rec ∈ r.chunks, rec.status ≠ .executed →
        rec.executed_quantity = 0 ∧ rec.cost = 0) :=
  twap_average_price 4 60 (1 / 100) 2 true _ (by norm_num) (by norm_num)
    (by norm_num) (by norm_num) (by norm_num)

/-! ### OCO coordinator (`oco.py` lines 19-207) -/

/-- The numeric payload of the OCO request forwarded to
`client.place_oco_order` (`oco.py` lines 69-77): quantity, take-profit limit
price, stop trigger price, stop-limit price.  The symbol / side /
time-in-force strings and the optional client-id / iceberg / strategy-id
fields carry no numeric behaviour relevant to the claims and are elided. -/
structure OcoRequest where
  quantity : ℚ
  price : ℚ
  stopPrice : ℚ
  stopLimitPrice : ℚ
  deriving DecidableEq, Repr

/-- `OCOOrder.place_oco_order` (`oco.py` lines 19-113).  Validation in source
order (`validate_symbol`, `validate_side`, `validate_time_in_force` elided):
`validate_quantity quantity`, `validate_price price`,
`validate_stop_price stop_price`, `validate_price stop_limit_price` — each
price is validated individually; there is no comparison between the three
prices.  On success the validated request is forwarded to the venue. -/
def place_oco_order (quantity price stopPrice stopLimitPrice : ℚ) :
    Except VError OcoRequest :=
  match validate_quantity quantity with
  | .error e => .error e
  | .ok q =>
    match validate_price price with
    | .error e => .error e
    | .ok p =>
      match validate_stop_price stopPrice with
      | .error e => .error e
      | .ok sp =>
        match validate_price stopLimitPrice with
        | .error e => .error e
        | .ok slp => .ok ⟨q, p, sp, slp⟩

/-- `OCOOrder.place_oco_order_by_quote_quantity` (`oco.py` lines 141-181):
validates the quote quantity and the three prices individually, computes
`quantity = quote_quantity / take_profit_price`, and delegates to
`place_oco_order` (which re-validates). -/
def place_oco_order_by_quote_quantity
    (quoteQuantity takeProfitPrice stopLossPrice stopLimitPrice : ℚ) :
    Except VError OcoRequest :=
  match validate_quantity quoteQuantity with
  | .error e => .error e
  | .ok qq =>
    match validate_price takeProfitPrice with
    | .error e => .error e
    | .ok tp =>
      match validate_stop_price stopLossPrice with
      | .error e => .error e
      | .ok sl =>
        match validate_price stopLimitPrice with
        | .error e => .error e
        | .ok slp =>
          let quantity := qq / tp
          place_oco_order quantity tp sl slp

theorem place_oco_order_ok_iff (q p sp slp : ℚ) :
    place_oco_order q p sp slp = .ok ⟨q, p, sp, slp⟩ ↔
      (0 < q ∧ q ≤ 1000000) ∧ (0 < p ∧ p ≤ 1000000) ∧
      (0 < sp ∧ sp ≤ 1000000) ∧ (0 < slp ∧ slp ≤ 1000000) := by
  unfold place_oco_order validate_quantity validate_stop_price validate_price
  split_ifs with h1 h2 h3 h4 h5 h6 h7 h8
  · simp only [reduceCtorEq, false_iff]
    rintro ⟨⟨hq, -⟩, -⟩; linarith
  · simp only [reduceCtorEq, false_iff]
    rintro ⟨⟨-, hq⟩, -⟩; linarith
  · simp only [reduceCtorEq, false_iff]
    rintro ⟨-, ⟨hp, -⟩, -⟩; linarith
  · simp only [reduceCtorEq, false_iff]
    rintro ⟨-, ⟨-, hp⟩, -⟩; linarith
  · simp only [reduceCtorEq, false_iff]
    rintro ⟨-, -, ⟨hsp, -⟩, -⟩; linarith
  · simp only [reduceCtorEq, false_iff]
    rintro ⟨-, -, ⟨-, hsp⟩, -⟩; linarith
  · simp only [reduceCtorEq, false_iff]
    rintro ⟨-, -, -, hslp, -⟩; linarith
  · simp only [reduceCtorEq, false_iff]
    rintro ⟨-, -, -, -, hslp⟩; linarith
  · simp only [true_iff]
    push_neg at h1 h2 h3 h4 h5 h6 h7 h8
    exact ⟨⟨by linarith, by linarith⟩, ⟨by linarith, by linarith⟩,
      ⟨by linarith, by linarith⟩, ⟨by linarith, by linarith⟩⟩

/-- C9: `place_oco_order` validates each price parameter individually
(positive and within the 1,000,000 bound) and performs no relative-ordering
check among the take-profit price, the stop trigger price and the stop-limit
price: the request succeeds and is forwarded with exactly the given prices if
and only if each parameter is individually valid — for every relative order of
the three prices. -/
theorem oco_no_relative_ordering_check (q p sp slp : ℚ) :
    place_oco_order q p sp slp = .ok ⟨q, p, sp, slp⟩ ↔
      (0 < q ∧ q ≤ 1000000) ∧ (0 < p ∧ p ≤ 1000000) ∧
      (0 < sp ∧ sp ≤ 1000000) ∧ (0 < slp ∧ slp ≤ 1000000) :=
  place_oco_order_ok_iff q p sp slp

/-- C9 witness: a price combination in "wrong" relative order for a BUY hedge
(take-profit 90 below stop trigger 100 and stop-limit 101) is accepted and
forwarded unchanged. -/
theorem oco_no_relative_ordering_check_witness :
    place_oco_order 1 90 100 101 = .ok ⟨1, 90, 100, 101⟩ :=
  (oco_no_relative_ordering_check 1 90 100 101).mpr
    ⟨⟨by norm_num, by norm_num⟩, ⟨by norm_num, by norm_num⟩,
     ⟨by norm_num, by norm_num⟩, ⟨by norm_num, by norm_num⟩⟩

theorem place_oco_order_ok_eq {a b c d : ℚ} {r : OcoRequest}
    (h : place_oco_order a b c d = .ok r) : r = ⟨a, b, c, d⟩ := by
  unfold place_oco_order validate_quantity validate_stop_price validate_price
    at h
  split_ifs at h
  simp_all

/-- C10: whenever `place_oco_order_by_quote_quantity` succeeds, the quantity in
the forwarded OCO request equals `quote_quantity / take_profit_price` — the
division uses the take-profit limit price, not the stop price, the stop-limit
price, or any market price. -/
theorem oco_quote_quantity_division
    (qq tp sl slp : ℚ) (r : OcoRequest)
    (h : place_oco_order_by_quote_quantity qq tp sl slp = .ok r) :
    r.quantity = qq / tp := by
  unfold place_oco_order_by_quote_quantity at h
  unfold validate_quantity validate_stop_price validate_price at h
  split_ifs at h
  have := place_oco_order_ok_eq h
  rw [this]

/-- C10 witness: quote 95 at take-profit price 100 submits quantity
`95 / 100 = 19/20`. -/
theorem oco_quote_quantity_division_witness :
    (⟨19 / 20, 100, 90, 89⟩ : OcoRequest).quantity = 95 / 100 :=
  oco_quote_quantity_division 95 100 90 89 ⟨19 / 20, 100, 90, 89⟩ (by
    unfold place_oco_order_by_quote_quantity place_oco_order validate_quantity
      validate_stop_price validate_price
    norm_num)

end BinanceBot
